import Mathlib

/-!
Verification of the DeliveryMicroservice event-sourced shipment subsystem.

The definitions below are a shallow embedding of the TypeScript source:
  src/domain/shipment/ShipmentStatus.ts   (status value object + event class)
  src/domain/shipment/ShipmentType.ts
  src/domain/shipment/Shipment.ts         (aggregate)
  src/domain/shipment/ShipmentValidator.ts
  src/infrastructure/persistence/mongodb/EventStoreRepository.ts
  src/infrastructure/persistence/mongodb/ShipmentProjectionRepository.ts
  src/infrastructure/persistence/repositories/ShipmentRepository.ts
  src/application/usecases/CreateShipmentUseCase.ts
  src/application/usecases/InitiateExchangeUseCase.ts

Modelling conventions:
* TypeScript exceptions are modelled with `Except DomainError`; each `throw`
  site of the source gets its own constructor carrying the data interpolated
  into the thrown message.  A method of the source that throws before its
  first mutation corresponds to an `Except.error` returned before any state
  is rebuilt, so the caller keeps the unchanged aggregate.
* JavaScript truthiness matters at several `if (x)` / `x || d` sites: the
  empty string and `undefined` are falsy, objects and arrays are truthy.
  Helpers `jsOrStr` and `strTruthy` encode this.
* Two call sites of the source pass arguments positionally into factory
  parameters of other names (`Shipment.cancel` into
  `createShipmentCancelled`, `Shipment.createForExchange` into
  `createExchangeCompleted`).  The event fields `customerInfo` / `articles`
  can therefore dynamically hold a string; the sum types `CIVal` / `ArtVal`
  embed that dynamic typing.
* Wall-clock data (`new Date()`) is threaded as an explicit timestamp string
  `ts` where the source interpolates it into a default description.  The
  `occurredOn` / `savedAt` / `_createdAt` / `_updatedAt` timestamps and the
  eventId generator are irrelevant to the verified properties; event ids are
  passed explicitly where the source generates them.
-/

namespace Delivery

/-- Models the JavaScript idiom `x || d` on an optional string:
`undefined` and the empty string are falsy. -/
def jsOrStr : Option String → String → String
  | some s, d => if s = "" then d else s
  | none, d => d

/-- Models `if (x)` on an optional string field. -/
def strTruthy : Option String → Bool
  | some s => s != ""
  | none => false

/-- `value.toUpperCase()`: character-wise upper-casing.  (Equivalent to
`String.toUpper`, but expressed as a structural `List.map` so that concrete
instances reduce inside the kernel.) -/
def strUpper (s : String) : String :=
  String.mk (s.data.map Char.toUpper)

/-- Models the blank-id guard `!s || s.trim() === ""`: true iff the string
has no non-whitespace character (equivalently `s.trim = ""`, expressed
structurally over the character list). -/
def strBlank (s : String) : Bool :=
  s.data.all Char.isWhitespace

/-- `ShipmentStatusEnum`, ShipmentStatus.ts lines 1-10. -/
inductive ShipmentStatusEnum where
  | PENDING
  | PREPARED
  | IN_TRANSIT
  | DELIVERED
  | CANCELLED
  | RETURNING
  | RETURNED
  | EXCHANGE_PROCESSED
deriving DecidableEq, Repr

/-- The enum's string value (the `_value` / `value` getter of the
`ShipmentStatus` wrapper class). -/
def ShipmentStatusEnum.value : ShipmentStatusEnum → String
  | .PENDING => "PENDING"
  | .PREPARED => "PREPARED"
  | .IN_TRANSIT => "IN_TRANSIT"
  | .DELIVERED => "DELIVERED"
  | .CANCELLED => "CANCELLED"
  | .RETURNING => "RETURNING"
  | .RETURNED => "RETURNED"
  | .EXCHANGE_PROCESSED => "EXCHANGE_PROCESSED"

/-- `ShipmentStatus.create`, ShipmentStatus.ts lines 19-27: upper-cases the
input and rejects anything outside the enumeration (`none` models the
`throw`). -/
def ShipmentStatus.create (s : String) : Option ShipmentStatusEnum :=
  let u := strUpper s
  if u = "PENDING" then some .PENDING
  else if u = "PREPARED" then some .PREPARED
  else if u = "IN_TRANSIT" then some .IN_TRANSIT
  else if u = "DELIVERED" then some .DELIVERED
  else if u = "CANCELLED" then some .CANCELLED
  else if u = "RETURNING" then some .RETURNING
  else if u = "RETURNED" then some .RETURNED
  else if u = "EXCHANGE_PROCESSED" then some .EXCHANGE_PROCESSED
  else none

/-- `ShipmentStatus.canTransitionTo`, ShipmentStatus.ts lines 101-128:
a literal transcription of the `transitions` record. -/
def ShipmentStatusEnum.canTransitionTo (self target : ShipmentStatusEnum) : Bool :=
  (match self with
    | .PENDING => [ShipmentStatusEnum.PREPARED, .CANCELLED]
    | .PREPARED => [.IN_TRANSIT, .CANCELLED]
    | .IN_TRANSIT => [.DELIVERED]
    | .DELIVERED => [.RETURNING]
    | .RETURNING => [.RETURNED, .EXCHANGE_PROCESSED]
    | .CANCELLED => []
    | .RETURNED => []
    | .EXCHANGE_PROCESSED => []).contains target

/-- `ShipmentStatus.canBeCancelled`, ShipmentStatus.ts lines 130-133. -/
def ShipmentStatusEnum.canBeCancelled (self : ShipmentStatusEnum) : Bool :=
  self = .PENDING || self = .PREPARED

/-- `ShipmentStatus.isTerminal`, ShipmentStatus.ts lines 135-140. -/
def ShipmentStatusEnum.isTerminal (self : ShipmentStatusEnum) : Bool :=
  self = .DELIVERED || self = .CANCELLED || self = .RETURNED ||
    self = .EXCHANGE_PROCESSED

/-- `ShipmentStatus.isDelivered`, ShipmentStatus.ts lines 81-83. -/
def ShipmentStatusEnum.isDelivered (self : ShipmentStatusEnum) : Bool :=
  self = .DELIVERED

/-- `ShipmentStatus.isReturning`, ShipmentStatus.ts lines 89-91. -/
def ShipmentStatusEnum.isReturning (self : ShipmentStatusEnum) : Bool :=
  self = .RETURNING

/-- `ShipmentTypeEnum`, ShipmentType.ts lines 5-8. -/
inductive ShipmentTypeEnum where
  | NORMAL
  | EXCHANGE
deriving DecidableEq, Repr

def ShipmentTypeEnum.value : ShipmentTypeEnum → String
  | .NORMAL => "NORMAL"
  | .EXCHANGE => "EXCHANGE"

/-- `ShipmentType.create`, ShipmentType.ts lines 23-31. -/
def ShipmentType.create (s : String) : Option ShipmentTypeEnum :=
  let u := strUpper s
  if u = "NORMAL" then some .NORMAL
  else if u = "EXCHANGE" then some .EXCHANGE
  else none

/-- `ShipmentEventType`, ShipmentEvent section of ShipmentStatus.ts. -/
inductive ShipmentEventType where
  | SHIPMENT_CREATED
  | MOVED_TO_PREPARED
  | MOVED_TO_IN_TRANSIT
  | MOVED_TO_DELIVERED
  | SHIPMENT_CANCELLED
  | RETURN_INITIATED
  | RETURN_COMPLETED
  | EXCHANGE_INITIATED
  | EXCHANGE_COMPLETED
  | SHIPMENT_ERROR
deriving DecidableEq, Repr

/-- `Article` interface. `number` fields are used only for equality in the
verified properties, so `Int` suffices. -/
structure Article where
  articleId : String
  quantity : Int
  price : Int
deriving DecidableEq, Repr

/-- `CustomerInfo` interface. -/
structure CustomerInfo where
  customerId : String
  name : String
  address : String
  city : String
  zipCode : String
  phone : String
deriving DecidableEq, Repr

/-- Dynamic value of the `customerInfo` slot: a proper object, or a string
that arrived through a positionally misrouted argument
(see `Shipment.createForExchange`). -/
inductive CIVal where
  | info (c : CustomerInfo)
  | str (s : String)
deriving DecidableEq, Repr

/-- JavaScript truthiness of a `customerInfo` value: objects are truthy,
a string is truthy iff non-empty. -/
def CIVal.truthy : CIVal → Bool
  | .info _ => true
  | .str s => s != ""

/-- Dynamic value of the `articles` slot: a real array, or a misrouted
string. -/
inductive ArtVal where
  | arts (l : List Article)
  | str (s : String)
deriving DecidableEq, Repr

/-- JavaScript truthiness of an `articles` value: arrays are always truthy
(also when empty), a string is truthy iff non-empty. -/
def ArtVal.truthy : ArtVal → Bool
  | .arts _ => true
  | .str s => s != ""

/-- `ShipmentEvent`, ShipmentEvent section of ShipmentStatus.ts: the fields
of the class (all optional fields as `Option`).  The inherited `occurredOn`
timestamp is omitted (no verified property reads it); `eventId` is the
idempotency key used as the Mongo `_id`. -/
structure ShipmentEvent where
  eventId : String
  eventType : ShipmentEventType
  shipmentId : String
  orderId : String
  actor : Option String
  description : Option String
  previousStatus : Option String
  newStatus : Option String
  customerInfo : Option CIVal
  articles : Option ArtVal
  shipmentType : Option String
  relatedShipmentId : Option String
  errorMessage : Option String
deriving DecidableEq, Repr

/-- `ShipmentEvent.isTerminalEvent`, ShipmentStatus.ts lines 472-477. -/
def ShipmentEvent.isTerminalEvent (e : ShipmentEvent) : Bool :=
  e.newStatus == some "DELIVERED" || e.newStatus == some "CANCELLED" ||
    e.newStatus == some "RETURNED" || e.newStatus == some "EXCHANGE_PROCESSED"

/-- `ShipmentEvent.createShipmentCreated` (factory): carries the creation
payload, `newStatus: "PENDING"`, `shipmentType: "NORMAL"`. -/
def ShipmentEvent.createShipmentCreated (eventId shipmentId orderId : String)
    (ci : CustomerInfo) (articles : List Article)
    (actor description : Option String) (ts : String) : ShipmentEvent :=
  { eventId := eventId, eventType := .SHIPMENT_CREATED,
    shipmentId := shipmentId, orderId := orderId, actor := actor,
    description := some (jsOrStr description ("Envío creado el " ++ ts)),
    previousStatus := none, newStatus := some "PENDING",
    customerInfo := some (.info ci), articles := some (.arts articles),
    shipmentType := some "NORMAL", relatedShipmentId := none,
    errorMessage := none }

/-- `ShipmentEvent.createMovedToPrepared` (factory). -/
def ShipmentEvent.createMovedToPrepared (eventId shipmentId orderId : String)
    (actor description : Option String) (ts : String) : ShipmentEvent :=
  { eventId := eventId, eventType := .MOVED_TO_PREPARED,
    shipmentId := shipmentId, orderId := orderId, actor := actor,
    description := some (jsOrStr description ("Envío preparado el " ++ ts)),
    previousStatus := some "PENDING", newStatus := some "PREPARED",
    customerInfo := none, articles := none, shipmentType := none,
    relatedShipmentId := none, errorMessage := none }

/-- `ShipmentEvent.createMovedToInTransit` (factory). -/
def ShipmentEvent.createMovedToInTransit (eventId shipmentId orderId : String)
    (actor description : Option String) (ts : String) : ShipmentEvent :=
  { eventId := eventId, eventType := .MOVED_TO_IN_TRANSIT,
    shipmentId := shipmentId, orderId := orderId, actor := actor,
    description := some (jsOrStr description ("Envío en camino el " ++ ts)),
    previousStatus := some "PREPARED", newStatus := some "IN_TRANSIT",
    customerInfo := none, articles := none, shipmentType := none,
    relatedShipmentId := none, errorMessage := none }

/-- `ShipmentEvent.createMovedToDelivered` (factory). -/
def ShipmentEvent.createMovedToDelivered (eventId shipmentId orderId : String)
    (actor description : Option String) (ts : String) : ShipmentEvent :=
  { eventId := eventId, eventType := .MOVED_TO_DELIVERED,
    shipmentId := shipmentId, orderId := orderId, actor := actor,
    description := some (jsOrStr description ("Envío entregado el " ++ ts)),
    previousStatus := some "IN_TRANSIT", newStatus := some "DELIVERED",
    customerInfo := none, articles := none, shipmentType := none,
    relatedShipmentId := none, errorMessage := none }

/-- `ShipmentEvent.createShipmentCancelled` (factory), ShipmentStatus.ts
lines 295-311.  Its third parameter is declared `previousStatus: string`;
it is typed `Option String` here because the call site in `Shipment.cancel`
passes a possibly-undefined value into it. -/
def ShipmentEvent.createShipmentCancelled (eventId shipmentId orderId : String)
    (previousStatus actor description : Option String) (ts : String) : ShipmentEvent :=
  { eventId := eventId, eventType := .SHIPMENT_CANCELLED,
    shipmentId := shipmentId, orderId := orderId, actor := actor,
    description := some (jsOrStr description ("Envío cancelado el " ++ ts)),
    previousStatus := previousStatus, newStatus := some "CANCELLED",
    customerInfo := none, articles := none, shipmentType := none,
    relatedShipmentId := none, errorMessage := none }

/-- `ShipmentEvent.createReturnInitiated` (factory). -/
def ShipmentEvent.createReturnInitiated (eventId shipmentId orderId : String)
    (actor description : Option String) (ts : String) : ShipmentEvent :=
  { eventId := eventId, eventType := .RETURN_INITIATED,
    shipmentId := shipmentId, orderId := orderId, actor := actor,
    description := some (jsOrStr description ("Devolución iniciada el " ++ ts)),
    previousStatus := some "DELIVERED", newStatus := some "RETURNING",
    customerInfo := none, articles := none, shipmentType := none,
    relatedShipmentId := none, errorMessage := none }

/-- `ShipmentEvent.createReturnCompleted` (factory). -/
def ShipmentEvent.createReturnCompleted (eventId shipmentId orderId : String)
    (actor description : Option String) (ts : String) : ShipmentEvent :=
  { eventId := eventId, eventType := .RETURN_COMPLETED,
    shipmentId := shipmentId, orderId := orderId, actor := actor,
    description := some (jsOrStr description ("Devolución completada el " ++ ts)),
    previousStatus := some "RETURNING", newStatus := some "RETURNED",
    customerInfo := none, articles := none, shipmentType := none,
    relatedShipmentId := none, errorMessage := none }

/-- `ShipmentEvent.createExchangeInitiated` (factory). -/
def ShipmentEvent.createExchangeInitiated (eventId shipmentId orderId newShipmentId : String)
    (actor description : Option String) (ts : String) : ShipmentEvent :=
  { eventId := eventId, eventType := .EXCHANGE_INITIATED,
    shipmentId := shipmentId, orderId := orderId, actor := actor,
    description := some (jsOrStr description ("Cambio de producto iniciado el " ++ ts)),
    previousStatus := some "RETURNING", newStatus := some "EXCHANGE_PROCESSED",
    customerInfo := none, articles := none, shipmentType := none,
    relatedShipmentId := some newShipmentId, errorMessage := none }

/-- `ShipmentEvent.createExchangeCompleted` (factory): the synthetic
creation event of the replacement shipment.  Its `customerInfo` / `articles`
parameters are typed with the dynamic slots since the call site in
`Shipment.createForExchange` feeds strings into them. -/
def ShipmentEvent.createExchangeCompleted (eventId shipmentId orderId originalShipmentId : String)
    (customerInfo : Option CIVal) (articles : Option ArtVal)
    (actor description : Option String) (ts : String) : ShipmentEvent :=
  { eventId := eventId, eventType := .EXCHANGE_COMPLETED,
    shipmentId := shipmentId, orderId := orderId, actor := actor,
    description := some (jsOrStr description ("Cambio de producto completado el " ++ ts)),
    previousStatus := none, newStatus := some "PENDING",
    customerInfo := customerInfo, articles := articles,
    shipmentType := some "EXCHANGE", relatedShipmentId := some originalShipmentId,
    errorMessage := none }

/-- The error conditions of the subsystem, one constructor per `throw` site,
carrying the data the thrown message interpolates. -/
inductive DomainError where
  /-- `Transición de estado inválida: src -> tgt` (Shipment.ts 247-253). -/
  | invalidTransition (src tgt : String)
  /-- cancel guard failure naming the current status (Shipment.ts 134-139). -/
  | cannotCancel (current : String)
  /-- initiateReturn guard failure (Shipment.ts 151-156). -/
  | returnRequiresDelivered (current : String)
  /-- completeReturn guard failure (Shipment.ts 168-173). -/
  | completeReturnRequiresReturning (current : String)
  /-- initiateExchange guard failure (Shipment.ts 185-190). -/
  | exchangeRequiresReturning (current : String)
  /-- use-case guard failure of InitiateExchangeUseCase (lines 147-159). -/
  | exchangeNotAllowedFrom (current : String)
  /-- `fromEvents` with no events (Shipment.ts 276-278). -/
  | emptyHistory
  /-- `fromEvents` whose first event lacks the creation payload
  (Shipment.ts 282-284). -/
  | malformedHistory
  /-- `ShipmentStatus.create` rejection (ShipmentStatus.ts 22-24). -/
  | invalidStatusString (s : String)
  /-- `ShipmentType.create` rejection. -/
  | invalidTypeString (s : String)
  /-- empty shipmentId in the event store (EventStoreRepository.ts 31-33). -/
  | shipmentIdRequired
  /-- `Envío no encontrado` from loadById (ShipmentRepository.ts 92-94). -/
  | notFound (shipmentId : String)
  /-- ShipmentValidator / use-case command validation failure. -/
  | validationMsg (msg : String)
deriving DecidableEq, Repr

/-- The §7 error taxonomy of the specification; every thrown error of the
embedded code is mapped to its category. -/
inductive ErrCategory where
  | validationCat
  | invalidTransitionCat
  | notFoundCat
  | historyCat
deriving DecidableEq, Repr

/-- Which §7 category each concrete error belongs to.  All guard failures of
§4.1/§4.2 (raw table violations, the cancel gate, the return/exchange gates)
are `InvalidTransition` per the specification. -/
def DomainError.category : DomainError → ErrCategory
  | .invalidTransition _ _ => .invalidTransitionCat
  | .cannotCancel _ => .invalidTransitionCat
  | .returnRequiresDelivered _ => .invalidTransitionCat
  | .completeReturnRequiresReturning _ => .invalidTransitionCat
  | .exchangeRequiresReturning _ => .invalidTransitionCat
  | .exchangeNotAllowedFrom _ => .invalidTransitionCat
  | .emptyHistory => .historyCat
  | .malformedHistory => .historyCat
  | .invalidStatusString _ => .validationCat
  | .invalidTypeString _ => .validationCat
  | .shipmentIdRequired => .validationCat
  | .notFound _ => .notFoundCat
  | .validationMsg _ => .validationCat

/-- A tracking-history entry, Shipment.ts lines 5-10.  The `timestamp` field
is omitted: the source reads `event.timestamp`, a property the
`ShipmentEvent` class never assigns, so it carries no information. -/
structure TrackingEntry where
  status : String
  description : String
  actor : Option String
deriving DecidableEq, Repr

/-- The `Shipment` aggregate, Shipment.ts lines 12-43: current state,
tracking history and the uncommitted-event buffer `events`.
`customerInfo` / `articles` use the dynamic slots because `fromEvents`
copies them straight out of the first event. -/
structure Shipment where
  id : String
  orderId : String
  status : ShipmentStatusEnum
  type : ShipmentTypeEnum
  customerInfo : CIVal
  articles : ArtVal
  tracking : List TrackingEntry
  relatedShipmentId : Option String
  events : List ShipmentEvent
deriving DecidableEq, Repr

/-- `Shipment.clearEvents`, Shipment.ts lines 91-93. -/
def Shipment.clearEvents (s : Shipment) : Shipment :=
  { s with events := [] }

/-- `Shipment.applyEvent`, Shipment.ts lines 255-273: if the event carries a
(truthy) `newStatus`, re-parse it into the status value object and append a
tracking entry; absorb a truthy `relatedShipmentId`; push the event onto the
uncommitted buffer. -/
def Shipment.applyEvent (s : Shipment) (e : ShipmentEvent) : Except DomainError Shipment := do
  let s ←
    match e.newStatus with
    | some ns =>
      if ns = "" then pure s
      else
        match ShipmentStatus.create ns with
        | some st =>
          pure { s with
            status := st,
            tracking := s.tracking ++
              [{ status := ns, description := jsOrStr e.description "", actor := e.actor }] }
        | none => Except.error (DomainError.invalidStatusString ns)
    | none => pure s
  let s :=
    match e.relatedShipmentId with
    | some r => if r = "" then s else { s with relatedShipmentId := some r }
    | none => s
  pure { s with events := s.events ++ [e] }

/-- `Shipment.moveToPrepared`, Shipment.ts lines 95-106:
`validateStateTransition` throws before any mutation when the transition
table forbids the move. -/
def Shipment.moveToPrepared (s : Shipment) (eventId : String)
    (actor description : Option String) (ts : String) : Except DomainError Shipment :=
  if s.status.canTransitionTo .PREPARED then
    s.applyEvent (ShipmentEvent.createMovedToPrepared eventId s.id s.orderId actor description ts)
  else
    Except.error (DomainError.invalidTransition s.status.value ShipmentStatusEnum.PREPARED.value)

/-- `Shipment.moveToInTransit`, Shipment.ts lines 108-119. -/
def Shipment.moveToInTransit (s : Shipment) (eventId : String)
    (actor description : Option String) (ts : String) : Except DomainError Shipment :=
  if s.status.canTransitionTo .IN_TRANSIT then
    s.applyEvent (ShipmentEvent.createMovedToInTransit eventId s.id s.orderId actor description ts)
  else
    Except.error (DomainError.invalidTransition s.status.value ShipmentStatusEnum.IN_TRANSIT.value)

/-- `Shipment.moveToDelivered`, Shipment.ts lines 121-132. -/
def Shipment.moveToDelivered (s : Shipment) (eventId : String)
    (actor description : Option String) (ts : String) : Except DomainError Shipment :=
  if s.status.canTransitionTo .DELIVERED then
    s.applyEvent (ShipmentEvent.createMovedToDelivered eventId s.id s.orderId actor description ts)
  else
    Except.error (DomainError.invalidTransition s.status.value ShipmentStatusEnum.DELIVERED.value)

/-- `Shipment.cancel`, Shipment.ts lines 134-149.  The source invokes
`createShipmentCancelled(this._id, this._orderId, actor, description)`
against the factory signature
`(shipmentId, orderId, previousStatus, actor?, description?)`: positionally,
`actor` lands in the factory's `previousStatus` parameter, `description` in
its `actor` parameter, and its `description` parameter stays undefined. -/
def Shipment.cancel (s : Shipment) (eventId : String)
    (actor description : Option String) (ts : String) : Except DomainError Shipment :=
  if s.status.canBeCancelled then
    s.applyEvent (ShipmentEvent.createShipmentCancelled eventId s.id s.orderId
      actor description none ts)
  else
    Except.error (DomainError.cannotCancel s.status.value)

/-- `Shipment.initiateReturn`, Shipment.ts lines 151-166. -/
def Shipment.initiateReturn (s : Shipment) (eventId : String)
    (actor description : Option String) (ts : String) : Except DomainError Shipment :=
  if s.status.isDelivered then
    s.applyEvent (ShipmentEvent.createReturnInitiated eventId s.id s.orderId actor description ts)
  else
    Except.error (DomainError.returnRequiresDelivered s.status.value)

/-- `Shipment.completeReturn`, Shipment.ts lines 168-183. -/
def Shipment.completeReturn (s : Shipment) (eventId : String)
    (actor description : Option String) (ts : String) : Except DomainError Shipment :=
  if s.status.isReturning then
    s.applyEvent (ShipmentEvent.createReturnCompleted eventId s.id s.orderId actor description ts)
  else
    Except.error (DomainError.completeReturnRequiresReturning s.status.value)

/-- `Shipment.initiateExchange`, Shipment.ts lines 185-201. -/
def Shipment.initiateExchange (s : Shipment) (newShipmentId eventId : String)
    (actor description : Option String) (ts : String) : Except DomainError Shipment :=
  if s.status.isReturning then
    s.applyEvent (ShipmentEvent.createExchangeInitiated eventId s.id s.orderId newShipmentId
      actor description ts)
  else
    Except.error (DomainError.exchangeRequiresReturning s.status.value)

/-- `Shipment.createForExchange`, Shipment.ts lines 203-234: builds a fresh
`PENDING` aggregate of kind `EXCHANGE` linked to the original shipment, then
applies a synthetic creation event.  The source invokes
`createExchangeCompleted(id, orderId, originalShipmentId, actor, description)`
against the factory signature
`(shipmentId, orderId, originalShipmentId, customerInfo, articles, actor?,
description?)`: positionally, `actor` lands in the factory's `customerInfo`
parameter and `description` in its `articles` parameter. -/
def Shipment.createForExchange (id orderId originalShipmentId : String)
    (customerInfo : CIVal) (articles : ArtVal)
    (actor description : Option String) (eventId ts : String) : Except DomainError Shipment :=
  let base : Shipment :=
    { id := id, orderId := orderId, status := .PENDING, type := .EXCHANGE,
      customerInfo := customerInfo, articles := articles, tracking := [],
      relatedShipmentId := some originalShipmentId, events := [] }
  base.applyEvent (ShipmentEvent.createExchangeCompleted eventId id orderId originalShipmentId
    (actor.map CIVal.str) (description.map ArtVal.str) none none ts)

/-- One step of the `events.forEach` fold inside `Shipment.fromEvents`
(Shipment.ts lines 293-314): unlike `applyEvent` it also folds a truthy
`shipmentType` and does not push onto the event buffer. -/
def replayStep (s : Shipment) (e : ShipmentEvent) : Except DomainError Shipment := do
  let s ←
    match e.newStatus with
    | some ns =>
      if ns = "" then pure s
      else
        match ShipmentStatus.create ns with
        | some st =>
          pure { s with
            status := st,
            tracking := s.tracking ++
              [{ status := ns, description := jsOrStr e.description "", actor := e.actor }] }
        | none => Except.error (DomainError.invalidStatusString ns)
    | none => pure s
  let s ←
    match e.shipmentType with
    | some ty =>
      if ty = "" then pure s
      else
        match ShipmentType.create ty with
        | some t => pure { s with type := t }
        | none => Except.error (DomainError.invalidTypeString ty)
    | none => pure s
  let s :=
    match e.relatedShipmentId with
    | some r => if r = "" then s else { s with relatedShipmentId := some r }
    | none => s
  pure s

/-- The `forEach` loop of `fromEvents` as a left fold in `Except`. -/
def replayFold (s : Shipment) : List ShipmentEvent → Except DomainError Shipment
  | [] => Except.ok s
  | e :: rest =>
    match replayStep s e with
    | Except.ok s' => replayFold s' rest
    | Except.error err => Except.error err

/-- `Shipment.fromEvents`, Shipment.ts lines 275-317: rejects an empty list;
rejects a first event whose `customerInfo` or `articles` is falsy; builds a
fresh aggregate from the first event's payload (constructor defaults:
`PENDING`, `NORMAL`, empty tracking and buffer) and folds every event. -/
def Shipment.fromEvents (events : List ShipmentEvent) : Except DomainError Shipment :=
  match events with
  | [] => Except.error DomainError.emptyHistory
  | first :: _ =>
    match first.customerInfo, first.articles with
    | some ci, some ar =>
      if ci.truthy && ar.truthy then
        replayFold
          { id := first.shipmentId, orderId := first.orderId,
            status := .PENDING, type := .NORMAL,
            customerInfo := ci, articles := ar, tracking := [],
            relatedShipmentId := none, events := [] } events
      else Except.error DomainError.malformedHistory
    | _, _ => Except.error DomainError.malformedHistory

/-- A document of the `events` collection
(EventStoreRepository.ts lines 42-50): the event's primitives spread into
the document, with `_id := eventId` (the idempotency key) and the
`shipmentId` field overridden by the `saveEvents` argument.  `savedAt` is
omitted (pure bookkeeping). -/
structure StoredEvent where
  mongoId : String
  event : ShipmentEvent
  shipmentId : String
deriving DecidableEq, Repr

/-- The append-only `events` collection, in insertion order.  Events are
constructed in chronological order, so the collection order coincides with
the `sort(timestamp: 1)` order used by the read paths. -/
abbrev EventStore := List StoredEvent

/-- Whether the collection already holds a document with this `_id`. -/
def hasId (store : EventStore) (id : String) : Bool :=
  store.any (fun d => d.mongoId = id)

/-- How many stored documents carry this `_id`. -/
def countId (store : EventStore) (id : String) : Nat :=
  (store.filter (fun d => d.mongoId = id)).length

/-- One insert of `insertMany(documents, ordered: false)`: a duplicate-key
condition on `_id` skips the document, everything else is appended. -/
def insertStep (store : EventStore) (shipmentId : String) (e : ShipmentEvent) : EventStore :=
  if hasId store e.eventId then store
  else store ++ [{ mongoId := e.eventId, event := e, shipmentId := shipmentId }]

/-- `EventStoreRepository.saveEvents`, lines 30-74: rejects a blank
`shipmentId`; an empty batch is a logged no-op; otherwise all non-duplicate
documents of the batch are inserted and any duplicate-key condition is
treated as success (the `ordered: false` insert plus the code-11000 catch),
never surfaced to the caller. -/
def saveEvents (store : EventStore) (shipmentId : String) (events : List ShipmentEvent) :
    Except DomainError EventStore :=
  if strBlank shipmentId then
    Except.error DomainError.shipmentIdRequired
  else if events = [] then Except.ok store
  else Except.ok (events.foldl (fun st e => insertStep st shipmentId e) store)

/-- Reading a stored document back
(`ShipmentEvent.fromPrimitives`): every field round-trips; `shipmentId`
comes back as the overridden document field. -/
def readBack (d : StoredEvent) : ShipmentEvent :=
  { d.event with shipmentId := d.shipmentId }

/-- `EventStoreRepository.getEventsByShipmentId`, lines 79-96: all events of
the shipment in chronological order. -/
def getEventsByShipmentId (store : EventStore) (shipmentId : String) :
    Except DomainError (List ShipmentEvent) :=
  if strBlank shipmentId then
    Except.error DomainError.shipmentIdRequired
  else
    Except.ok ((store.filter (fun d => d.shipmentId = shipmentId)).map readBack)

/-- A document of the `shipment_projection` collection
(`ShipmentProjectionRepository.toDocument`, lines 180-193), minus the
timestamps. -/
structure ProjectionDoc where
  id : String
  orderId : String
  status : String
  type : String
  customerInfo : CIVal
  articles : ArtVal
  tracking : List TrackingEntry
  relatedShipmentId : Option String
deriving DecidableEq, Repr

/-- The projection store keyed by shipment id. -/
abbrev ProjectionStore := List ProjectionDoc

/-- `toDocument`: flatten the aggregate. -/
def toDocument (s : Shipment) : ProjectionDoc :=
  { id := s.id, orderId := s.orderId, status := s.status.value,
    type := s.type.value, customerInfo := s.customerInfo,
    articles := s.articles, tracking := s.tracking,
    relatedShipmentId := s.relatedShipmentId }

/-- `ShipmentProjectionRepository.save`, lines 33-48:
`updateOne({id}, {$set: document}, upsert: true)` — create-or-replace of the
full flattened record. -/
def projectionUpsert (proj : ProjectionStore) (s : Shipment) : ProjectionStore :=
  if proj.any (fun d => d.id = s.id) then
    proj.map (fun d => if d.id = s.id then toDocument s else d)
  else proj ++ [toDocument s]

/-- The two persisted collections of the subsystem. -/
structure PersistState where
  log : EventStore
  projection : ProjectionStore
deriving DecidableEq, Repr

/-- The prefix of `ShipmentRepository.save` up to and including the event
append (lines 51-57): the buffered events are in the log, the projection is
not yet touched.  This is the state visible if execution stops between the
two awaits. -/
def saveAppendPhase (ps : PersistState) (s : Shipment) : Except DomainError PersistState := do
  let log' ←
    if s.events.length > 0 then saveEvents ps.log s.id s.events
    else pure ps.log
  pure { ps with log := log' }

/-- `ShipmentRepository.save`, lines 49-70: append the buffered events to
the event log, then upsert the projection from the post-mutation state, then
clear the aggregate's buffer.  `clearEvents` runs only after both persistence
steps succeeded; a throw during the append leaves the TypeScript aggregate
object untouched, which the `Except.error` branch models (no post-state is
produced, the caller keeps `s` with its buffer). -/
def repositorySave (ps : PersistState) (s : Shipment) :
    Except DomainError (PersistState × Shipment) := do
  let mid ← saveAppendPhase ps s
  let proj' := projectionUpsert mid.projection s
  pure ({ log := mid.log, projection := proj' }, s.clearEvents)

/-- `ShipmentRepository.loadById`, lines 88-106: replay the full history;
zero events is `Envío no encontrado` (`NotFound`); otherwise reconstruct via
`Shipment.fromEvents`. -/
def loadById (ps : PersistState) (shipmentId : String) : Except DomainError Shipment := do
  let events ← getEventsByShipmentId ps.log shipmentId
  if events.length = 0 then Except.error (DomainError.notFound shipmentId)
  else Shipment.fromEvents events

/-- `ShipmentValidator.validateArticles` on a dynamic `articles` value:
a non-array throws, an empty array throws, every article needs a non-blank
id, positive quantity and non-negative price. -/
def validateArticlesVal : ArtVal → Except DomainError Unit
  | .str _ => Except.error (DomainError.validationMsg "Articles debe ser un array")
  | .arts l =>
    if l = [] then Except.error (DomainError.validationMsg "Debe haber al menos un artículo")
    else if l.all (fun a => !strBlank a.articleId ∧ 0 < a.quantity ∧ 0 ≤ a.price) then
      Except.ok ()
    else Except.error (DomainError.validationMsg "artículo inválido")

/-- The aggregate produced by `CreateShipmentUseCase.execute` steps 3-6
(lines 134-162): the bare constructor (status `PENDING`, kind `NORMAL`),
a `SHIPMENT_CREATED` event with `actor := command.actor || "system"` and
`description := command.description || default`, one initial tracking entry
mirroring the event, and the event pushed onto the buffer. -/
def createShipmentAggregate (shipmentId orderId : String)
    (ci : CustomerInfo) (articles : List Article)
    (actor description : Option String) (eventId ts : String) : Shipment :=
  let ev := ShipmentEvent.createShipmentCreated eventId shipmentId orderId ci articles
    (some (jsOrStr actor "system"))
    (some (jsOrStr description ("Envío creado automáticamente el " ++ ts))) ts
  { id := shipmentId, orderId := orderId, status := .PENDING, type := .NORMAL,
    customerInfo := .info ci, articles := .arts articles,
    tracking := [{ status := "PENDING", description := jsOrStr ev.description "",
                   actor := ev.actor }],
    relatedShipmentId := none, events := [ev] }

/-- `InitiateExchangeCommand`, InitiateExchangeUseCase.ts lines 9-15. -/
structure InitiateExchangeCommand where
  shipmentId : String
  newArticles : Option (List Article)
  reason : Option String
  actor : Option String
  description : Option String
deriving DecidableEq, Repr

/-- The nondeterministic inputs of one `execute` run: the generated id of
the replacement shipment, the generated event ids and the timestamps of the
three events that may be created. -/
structure ExchangeCtx where
  newShipmentId : String
  eidReturn : String
  eidExchange : String
  eidCreate : String
  tsReturn : String
  tsExchange : String
  tsCreate : String
deriving DecidableEq, Repr

/-- The observable outcome of `InitiateExchangeUseCase.execute`: the two
returned aggregates, the persisted state, and the domain events that were
appended to the original shipment over the whole run (the buffer contents
consumed by the two saves of the original). -/
structure ExchangeResult where
  originalShipment : Shipment
  newShipment : Shipment
  s1AppendedEvents : List ShipmentEvent
  finalState : PersistState
deriving DecidableEq, Repr

/-- `InitiateExchangeUseCase.validateCommand`, lines 128-142. -/
def validateExchangeCommand (cmd : InitiateExchangeCommand) : Except DomainError Unit := do
  if strBlank cmd.shipmentId then
    Except.error (DomainError.validationMsg "shipmentId es requerido")
  else if strTruthy cmd.description ∧ (cmd.description.getD "").length > 500 then
    Except.error (DomainError.validationMsg "description no puede exceder 500 caracteres")
  else if strTruthy cmd.reason ∧ (cmd.reason.getD "").length > 500 then
    Except.error (DomainError.validationMsg "razón demasiado larga")
  else
    match cmd.newArticles with
    | some l => validateArticlesVal (.arts l)
    | none => Except.ok ()

/-- `InitiateExchangeUseCase.buildDescription`, lines 164-178. -/
def buildExchangeDescription (cmd : InitiateExchangeCommand)
    (newShipmentId ts : String) : String :=
  jsOrStr cmd.description
    ("Cambio de producto iniciado el " ++ ts ++ ". Nuevo envío: " ++ newShipmentId ++
      (if strTruthy cmd.reason then ". Razón: " ++ cmd.reason.getD "" else ""))

/-- `InitiateExchangeUseCase.execute`, lines 47-123 (the RabbitMQ publishes
of step 10, whose failures are swallowed, are outside the persisted state
and are not modelled): validate, load the original by replay, check the
DELIVERED-or-RETURNING gate, move a DELIVERED original to RETURNING via
`initiateReturn` and save, mark the original `EXCHANGE_PROCESSED` via
`initiateExchange`, create the linked `EXCHANGE` aggregate via
`createForExchange`, and save both. -/
def initiateExchangeExecute (ps : PersistState) (cmd : InitiateExchangeCommand)
    (ctx : ExchangeCtx) : Except DomainError ExchangeResult := do
  validateExchangeCommand cmd
  let original0 ← loadById ps cmd.shipmentId
  if !(original0.status.isDelivered || original0.status.isReturning) then
    Except.error (DomainError.exchangeNotAllowedFrom original0.status.value)
  else do
    -- step 4: `loadById` reconstructs with an empty buffer and `save`
    -- clears it, so the buffer of `phase1` below holds exactly the events
    -- appended in this phase.
    let (original1, ps1, appended1) ←
      if original0.status.isDelivered then do
        let phase1 ← original0.initiateReturn ctx.eidReturn
          (some (jsOrStr cmd.actor "customer"))
          (some "Devolución iniciada para cambio de producto") ctx.tsReturn
        let (ps1, saved1) ← repositorySave ps phase1
        pure (saved1, ps1, phase1.events)
      else pure (original0, ps, [])
    -- steps 5-6
    let newArticles : ArtVal :=
      match cmd.newArticles with
      | some l => .arts l
      | none => original1.articles
    validateArticlesVal newArticles
    -- step 7
    let desc := buildExchangeDescription cmd ctx.newShipmentId ctx.tsExchange
    let original2 ← original1.initiateExchange ctx.newShipmentId ctx.eidExchange
      (some (jsOrStr cmd.actor "customer")) (some desc) ctx.tsExchange
    -- step 8
    let newShipment ← Shipment.createForExchange ctx.newShipmentId original1.orderId
      cmd.shipmentId original1.customerInfo newArticles
      (some (jsOrStr cmd.actor "system"))
      (some ("Nuevo envío de cambio creado desde " ++ cmd.shipmentId))
      ctx.eidCreate ctx.tsCreate
    -- step 9
    let (ps2, original3) ← repositorySave ps1 original2
    let (ps3, newSaved) ← repositorySave ps2 newShipment
    pure { originalShipment := original3, newShipment := newSaved,
           s1AppendedEvents := appended1 ++ original2.events,
           finalState := ps3 }

/-- Observed state of the TypeScript aggregate object after a (possibly
throwing) domain method call: every guard throws before the first mutation,
so on an error the object is the unchanged receiver. -/
def postState (s : Shipment) (r : Except DomainError Shipment) : Shipment :=
  match r with
  | .ok s' => s'
  | .error _ => s

/-- The seven domain operations of §4.2 as path labels; exchange initiation
carries the generated replacement-shipment id. -/
inductive DomainOp where
  | toPrepared
  | toInTransit
  | toDelivered
  | doCancel
  | doInitiateReturn
  | doCompleteReturn
  | doInitiateExchange (newShipmentId : String)
deriving DecidableEq, Repr

/-- The target status of each operation's transition. -/
def DomainOp.target : DomainOp → ShipmentStatusEnum
  | .toPrepared => .PREPARED
  | .toInTransit => .IN_TRANSIT
  | .toDelivered => .DELIVERED
  | .doCancel => .CANCELLED
  | .doInitiateReturn => .RETURNING
  | .doCompleteReturn => .RETURNED
  | .doInitiateExchange _ => .EXCHANGE_PROCESSED

/-- Per-call inputs of one domain operation: the generated event id, the
acting party, the note, and the timestamp string. -/
structure OpArgs where
  eventId : String
  actor : Option String
  description : Option String
  ts : String
deriving DecidableEq, Repr

/-- Dispatch one domain operation on the aggregate. -/
def runOp (s : Shipment) : DomainOp → OpArgs → Except DomainError Shipment
  | .toPrepared, a => s.moveToPrepared a.eventId a.actor a.description a.ts
  | .toInTransit, a => s.moveToInTransit a.eventId a.actor a.description a.ts
  | .toDelivered, a => s.moveToDelivered a.eventId a.actor a.description a.ts
  | .doCancel, a => s.cancel a.eventId a.actor a.description a.ts
  | .doInitiateReturn, a => s.initiateReturn a.eventId a.actor a.description a.ts
  | .doCompleteReturn, a => s.completeReturn a.eventId a.actor a.description a.ts
  | .doInitiateExchange nid, a => s.initiateExchange nid a.eventId a.actor a.description a.ts

/-- A path of operations is legal under the §4.1 table from a status iff
each step's (source, target) pair is in the table. -/
def legalFrom : ShipmentStatusEnum → List DomainOp → Bool
  | _, [] => true
  | st, op :: rest => st.canTransitionTo op.target && legalFrom op.target rest

/-- Run a path of operations, threading the aggregate. -/
def runOps (s : Shipment) : List (DomainOp × OpArgs) → Except DomainError Shipment
  | [] => Except.ok s
  | (op, a) :: rest =>
    match runOp s op a with
    | Except.ok s' => runOps s' rest
    | Except.error e => Except.error e

/-- The target of the last transition of a path (default for the empty
path). -/
def lastTargetD : List DomainOp → ShipmentStatusEnum → ShipmentStatusEnum
  | [], d => d
  | op :: rest, _ => lastTargetD rest op.target

/-- The state update `applyEvent` performs for an event carrying the status
string of `t` (the common mutation of `applyEvent`; `relUpdate` is the
truthy `relatedShipmentId` absorption). -/
def relUpdate (old : Option String) : Option String → Option String
  | some r => if r = "" then old else some r
  | none => old

/-- Expected result of `Shipment.applyEvent` on a status-carrying event. -/
def applyStatusEvent (s : Shipment) (e : ShipmentEvent) (t : ShipmentStatusEnum) : Shipment :=
  { s with
    status := t,
    tracking := s.tracking ++
      [{ status := t.value, description := jsOrStr e.description "", actor := e.actor }],
    relatedShipmentId := relUpdate s.relatedShipmentId e.relatedShipmentId,
    events := s.events ++ [e] }

/-- Expected result of `replayStep` on a status-carrying event with no
`shipmentType` payload. -/
def replayStatusEvent (s : Shipment) (e : ShipmentEvent) (t : ShipmentStatusEnum) : Shipment :=
  { s with
    status := t,
    tracking := s.tracking ++
      [{ status := t.value, description := jsOrStr e.description "", actor := e.actor }],
    relatedShipmentId := relUpdate s.relatedShipmentId e.relatedShipmentId }

/-- Sample customer snapshot for concrete instances. -/
def demoCI : CustomerInfo :=
  { customerId := "C1", name := "Ana", address := "Calle 1", city := "BA",
    zipCode := "1000", phone := "555" }

/-- Sample line item. -/
def demoArticle : Article :=
  { articleId := "A1", quantity := 1, price := 10 }

/-- A sample aggregate at an arbitrary status with an empty buffer. -/
def demoShipment (st : ShipmentStatusEnum) : Shipment :=
  { id := "S1", orderId := "O1", status := st, type := .NORMAL,
    customerInfo := .info demoCI, articles := .arts [demoArticle],
    tracking := [], relatedShipmentId := none, events := [] }

/-- The event history of a sample shipment that was created and moved to
`DELIVERED`. -/
def s1Events : List ShipmentEvent :=
  [ ShipmentEvent.createShipmentCreated "e1" "S1" "O1" demoCI [demoArticle]
      (some "system") (some "alta") "T1",
    ShipmentEvent.createMovedToPrepared "e2" "S1" "O1" (some "op") none "T2",
    ShipmentEvent.createMovedToInTransit "e3" "S1" "O1" (some "op") none "T3",
    ShipmentEvent.createMovedToDelivered "e4" "S1" "O1" (some "op") none "T4" ]

/-- A persisted state whose event log holds the delivered sample shipment. -/
def demoPS : PersistState :=
  { log := s1Events.map (fun e => { mongoId := e.eventId, event := e, shipmentId := "S1" }),
    projection := [] }

/-- A sample exchange command for the delivered shipment. -/
def demoCmd : InitiateExchangeCommand :=
  { shipmentId := "S1", newArticles := none, reason := none,
    actor := some "cust", description := some "cambio" }

/-- Sample generated ids/timestamps for one exchange run. -/
def demoCtx : ExchangeCtx :=
  { newShipmentId := "S2", eidReturn := "e5", eidExchange := "e6", eidCreate := "e7",
    tsReturn := "T5", tsExchange := "T6", tsCreate := "T7" }

/-- The replacement aggregate built by `createForExchange` at concrete
inputs (used to exercise the persistence round trip). -/
def exchangeAggregate : Except DomainError Shipment :=
  Shipment.createForExchange "S2" "O1" "S1" (.info demoCI) (.arts [demoArticle])
    (some "system") (some "nota") "e9" "T9"

deriving instance DecidableEq for Except

/-- A sample legal operation path PENDING -> PREPARED -> IN_TRANSIT ->
DELIVERED -> RETURNING -> RETURNED. -/
def demoPath : List (DomainOp × OpArgs) :=
  [(DomainOp.toPrepared, { eventId := "p2", actor := some "op", description := none, ts := "T2" }),
   (DomainOp.toInTransit, { eventId := "p3", actor := some "op", description := none, ts := "T3" }),
   (DomainOp.toDelivered, { eventId := "p4", actor := some "op", description := none, ts := "T4" }),
   (DomainOp.doInitiateReturn, { eventId := "p5", actor := some "cust", description := none, ts := "T5" }),
   (DomainOp.doCompleteReturn, { eventId := "p6", actor := some "wh", description := none, ts := "T6" })]

/-! ## Helper lemmas -/

theorem create_value (st : ShipmentStatusEnum) : ShipmentStatus.create st.value = some st := by
  cases st <;> decide

theorem value_ne_empty (st : ShipmentStatusEnum) : ¬ st.value = "" := by
  cases st <;> decide

theorem applyEvent_ok (s : Shipment) (e : ShipmentEvent) (t : ShipmentStatusEnum)
    (h : e.newStatus = some t.value) :
    s.applyEvent e = Except.ok (applyStatusEvent s e t) := by
  unfold Shipment.applyEvent
  rw [h]
  simp only [if_neg (value_ne_empty t), create_value t]
  cases hrel : e.relatedShipmentId with
  | none => simp [applyStatusEvent, relUpdate, hrel, bind, Except.bind, pure, Except.pure]
  | some r =>
    by_cases hr : r = "" <;>
      simp [applyStatusEvent, relUpdate, hrel, hr, bind, Except.bind, pure, Except.pure]

theorem replayStep_ok (s : Shipment) (e : ShipmentEvent) (t : ShipmentStatusEnum)
    (h : e.newStatus = some t.value) (hty : e.shipmentType = none) :
    replayStep s e = Except.ok (replayStatusEvent s e t) := by
  unfold replayStep
  rw [h]
  simp only [if_neg (value_ne_empty t), create_value t, hty]
  cases hrel : e.relatedShipmentId with
  | none => simp [replayStatusEvent, relUpdate, hrel, bind, Except.bind, pure, Except.pure]
  | some r =>
    by_cases hr : r = "" <;>
      simp [replayStatusEvent, relUpdate, hrel, hr, bind, Except.bind, pure, Except.pure]

theorem typeStr_parse (ty : ShipmentTypeEnum) : ShipmentType.create ty.value = some ty := by
  cases ty <;> decide

theorem replayStep_ok_typed (s : Shipment) (e : ShipmentEvent) (t : ShipmentStatusEnum)
    (ty : ShipmentTypeEnum)
    (h : e.newStatus = some t.value) (hty : e.shipmentType = some ty.value) :
    replayStep s e = Except.ok { replayStatusEvent s e t with type := ty } := by
  unfold replayStep
  rw [h]
  have hne : ¬ ty.value = "" := by cases ty <;> decide
  simp only [if_neg (value_ne_empty t), create_value t, hty, if_neg hne, typeStr_parse ty]
  cases hrel : e.relatedShipmentId with
  | none => simp [replayStatusEvent, relUpdate, hrel, bind, Except.bind, pure, Except.pure]
  | some r =>
    by_cases hr : r = "" <;>
      simp [replayStatusEvent, relUpdate, hrel, hr, bind, Except.bind, pure, Except.pure]

theorem replayStep_events (s : Shipment) (e : ShipmentEvent) (s' : Shipment)
    (h : replayStep s e = Except.ok s') :
    s'.events = s.events := by
  unfold replayStep at h
  simp only [bind, Except.bind, pure, Except.pure] at h
  iterate 8 (all_goals try split at h)
  all_goals try exact Except.noConfusion h
  all_goals (injection h with h; subst h; rfl)

theorem replayFold_append (b : Shipment) (l1 l2 : List ShipmentEvent) :
    replayFold b (l1 ++ l2) =
      match replayFold b l1 with
      | Except.ok m => replayFold m l2
      | Except.error err => Except.error err := by
  induction l1 generalizing b with
  | nil => simp [replayFold]
  | cons e rest ih =>
    simp only [List.cons_append, replayFold]
    cases replayStep b e with
    | ok m => simp [ih]
    | error err => rfl

theorem replayFold_events (l : List ShipmentEvent) :
    ∀ b r : Shipment, replayFold b l = Except.ok r → r.events = b.events := by
  induction l with
  | nil =>
    intro b r h
    simp only [replayFold, Except.ok.injEq] at h
    subst h; rfl
  | cons e rest ih =>
    intro b r h
    unfold replayFold at h
    cases hs : replayStep b e with
    | ok m =>
      rw [hs] at h
      rw [ih m r h, replayStep_events b e m hs]
    | error err => rw [hs] at h; exact Except.noConfusion h

theorem fromEvents_buffer_empty (l : List ShipmentEvent) (r : Shipment)
    (h : Shipment.fromEvents l = Except.ok r) : r.events = [] := by
  cases l with
  | nil => exact Except.noConfusion h
  | cons first rest =>
    simp only [Shipment.fromEvents] at h
    split at h
    case h_1 =>
      split at h
      case isTrue => exact replayFold_events _ _ _ h
      case isFalse => exact Except.noConfusion h
    case h_2 => exact Except.noConfusion h

theorem fromEvents_snoc (l : List ShipmentEvent) (e : ShipmentEvent) (r : Shipment)
    (h : Shipment.fromEvents l = Except.ok r) :
    Shipment.fromEvents (l ++ [e]) = replayStep r e := by
  cases l with
  | nil => exact Except.noConfusion h
  | cons first rest =>
    simp only [List.cons_append, Shipment.fromEvents] at h ⊢
    split at h
    case h_2 => exact Except.noConfusion h
    case h_1 ci ar hci har =>
      split at h
      case isFalse => exact Except.noConfusion h
      case isTrue htr =>
        rw [if_pos htr]
        have hap := replayFold_append
          { id := first.shipmentId, orderId := first.orderId,
            status := .PENDING, type := .NORMAL,
            customerInfo := ci, articles := ar, tracking := [],
            relatedShipmentId := none, events := [] } (first :: rest) [e]
        simp only [List.cons_append] at hap
        rw [hap, h]
        cases hrs : replayStep r e <;> simp [replayFold, hrs]

theorem canBeCancelled_eq_table (st : ShipmentStatusEnum) :
    st.canBeCancelled = st.canTransitionTo .CANCELLED := by
  cases st <;> decide

theorem isDelivered_eq_table (st : ShipmentStatusEnum) :
    st.isDelivered = st.canTransitionTo .RETURNING := by
  cases st <;> decide

theorem isReturning_eq_table_returned (st : ShipmentStatusEnum) :
    st.isReturning = st.canTransitionTo .RETURNED := by
  cases st <;> decide

theorem isReturning_eq_table_exchange (st : ShipmentStatusEnum) :
    st.isReturning = st.canTransitionTo .EXCHANGE_PROCESSED := by
  cases st <;> decide

theorem runOp_ok (s : Shipment) (op : DomainOp) (a : OpArgs)
    (h : s.status.canTransitionTo op.target = true) :
    ∃ e : ShipmentEvent,
      runOp s op a = Except.ok (applyStatusEvent s e op.target) ∧
      e.newStatus = some op.target.value ∧ e.shipmentType = none := by
  cases op with
  | toPrepared =>
    simp only [DomainOp.target] at h
    refine ⟨ShipmentEvent.createMovedToPrepared a.eventId s.id s.orderId a.actor a.description a.ts, ?_, rfl, rfl⟩
    simp only [runOp, Shipment.moveToPrepared, if_pos h]
    exact applyEvent_ok _ _ _ rfl
  | toInTransit =>
    simp only [DomainOp.target] at h
    refine ⟨ShipmentEvent.createMovedToInTransit a.eventId s.id s.orderId a.actor a.description a.ts, ?_, rfl, rfl⟩
    simp only [runOp, Shipment.moveToInTransit, if_pos h]
    exact applyEvent_ok _ _ _ rfl
  | toDelivered =>
    simp only [DomainOp.target] at h
    refine ⟨ShipmentEvent.createMovedToDelivered a.eventId s.id s.orderId a.actor a.description a.ts, ?_, rfl, rfl⟩
    simp only [runOp, Shipment.moveToDelivered, if_pos h]
    exact applyEvent_ok _ _ _ rfl
  | doCancel =>
    simp only [DomainOp.target] at h
    rw [← canBeCancelled_eq_table] at h
    refine ⟨ShipmentEvent.createShipmentCancelled a.eventId s.id s.orderId a.actor a.description none a.ts, ?_, rfl, rfl⟩
    simp only [runOp, Shipment.cancel, if_pos h]
    exact applyEvent_ok _ _ _ rfl
  | doInitiateReturn =>
    simp only [DomainOp.target] at h
    rw [← isDelivered_eq_table] at h
    refine ⟨ShipmentEvent.createReturnInitiated a.eventId s.id s.orderId a.actor a.description a.ts, ?_, rfl, rfl⟩
    simp only [runOp, Shipment.initiateReturn, if_pos h]
    exact applyEvent_ok _ _ _ rfl
  | doCompleteReturn =>
    simp only [DomainOp.target] at h
    rw [← isReturning_eq_table_returned] at h
    refine ⟨ShipmentEvent.createReturnCompleted a.eventId s.id s.orderId a.actor a.description a.ts, ?_, rfl, rfl⟩
    simp only [runOp, Shipment.completeReturn, if_pos h]
    exact applyEvent_ok _ _ _ rfl
  | doInitiateExchange nid =>
    simp only [DomainOp.target] at h
    rw [← isReturning_eq_table_exchange] at h
    refine ⟨ShipmentEvent.createExchangeInitiated a.eventId s.id s.orderId nid a.actor a.description a.ts, ?_, rfl, rfl⟩
    simp only [runOp, Shipment.initiateExchange, if_pos h]
    exact applyEvent_ok _ _ _ rfl

theorem runOps_replay (path : List (DomainOp × OpArgs)) :
    ∀ s : Shipment,
      legalFrom s.status (path.map Prod.fst) = true →
      (∃ r, Shipment.fromEvents s.events = Except.ok r ∧ r.status = s.status) →
      ∃ s' r', runOps s path = Except.ok s' ∧
        Shipment.fromEvents s'.events = Except.ok r' ∧ r'.status = s'.status ∧
        s'.status = lastTargetD (path.map Prod.fst) s.status := by
  induction path with
  | nil =>
    intro s _ hc
    obtain ⟨r, hr, hst⟩ := hc
    exact ⟨s, r, rfl, hr, hst, rfl⟩
  | cons p rest ih =>
    obtain ⟨op, a⟩ := p
    intro s hleg hc
    obtain ⟨r, hr, hst⟩ := hc
    simp only [List.map_cons, legalFrom, Bool.and_eq_true] at hleg
    obtain ⟨h1, h2⟩ := hleg
    obtain ⟨e, hrun, hns, hty⟩ := runOp_ok s op a h1
    have hfe : Shipment.fromEvents (applyStatusEvent s e op.target).events =
        replayStep r e := by
      show Shipment.fromEvents (s.events ++ [e]) = replayStep r e
      exact fromEvents_snoc _ _ _ hr
    have hstep : replayStep r e = Except.ok (replayStatusEvent r e op.target) :=
      replayStep_ok r e op.target hns hty
    have hrec := ih (applyStatusEvent s e op.target) h2
      ⟨replayStatusEvent r e op.target, by rw [hfe, hstep], rfl⟩
    obtain ⟨s', r', hrun', hfe', hst', hlast⟩ := hrec
    refine ⟨s', r', ?_, hfe', hst', ?_⟩
    · simp only [runOps, hrun]
      exact hrun'
    · simpa [lastTargetD] using hlast

theorem lastTargetD_getLast (ops : List DomainOp) :
    ∀ (op : DomainOp) (d : ShipmentStatusEnum),
      ops.getLast? = some op → lastTargetD ops d = op.target := by
  induction ops with
  | nil => intro op d h; exact Option.noConfusion h
  | cons a l ih =>
    intro op d h
    cases l with
    | nil =>
      simp only [List.getLast?_singleton, Option.some.injEq] at h
      subst h; rfl
    | cons b m =>
      rw [List.getLast?_cons_cons] at h
      simpa [lastTargetD] using ih op a.target h

theorem fromEvents_single_creation (e : ShipmentEvent) (ci : CustomerInfo) (ar : List Article)
    (hci : e.customerInfo = some (.info ci)) (har : e.articles = some (.arts ar))
    (hns : e.newStatus = some "PENDING") (hty : e.shipmentType = some "NORMAL") :
    Shipment.fromEvents [e] = Except.ok
      { replayStatusEvent
          { id := e.shipmentId, orderId := e.orderId, status := .PENDING, type := .NORMAL,
            customerInfo := .info ci, articles := .arts ar, tracking := [],
            relatedShipmentId := none, events := [] } e .PENDING with
        type := .NORMAL } := by
  have hstep := replayStep_ok_typed
      { id := e.shipmentId, orderId := e.orderId, status := .PENDING, type := .NORMAL,
        customerInfo := .info ci, articles := .arts ar, tracking := [],
        relatedShipmentId := none, events := [] } e .PENDING .NORMAL hns hty
  simp only [Shipment.fromEvents, hci, har, CIVal.truthy, ArtVal.truthy, Bool.and_self,
    if_pos]
  simp only [replayFold, hstep]

theorem created_replay (shipmentId orderId : String) (ci : CustomerInfo)
    (arts : List Article) (actor description : Option String) (eventId ts : String) :
    ∃ r, Shipment.fromEvents
        (createShipmentAggregate shipmentId orderId ci arts actor description eventId ts).events =
      Except.ok r ∧ r.status = ShipmentStatusEnum.PENDING := by
  refine ⟨_, fromEvents_single_creation
    (ShipmentEvent.createShipmentCreated eventId shipmentId orderId ci arts
      (some (jsOrStr actor "system"))
      (some (jsOrStr description ("Envío creado automáticamente el " ++ ts))) ts)
    ci arts rfl rfl rfl rfl, rfl⟩

/-! ## Claim theorems -/

/-- **C1** — The status transition relation is exactly the spec's table:
`canTransitionTo` returns true precisely on the eight listed pairs (so
CANCELLED, RETURNED and EXCHANGE_PROCESSED have no outbound transitions),
and each move operation attempted on a pair outside the table fails with the
invalid-transition error naming the source and the attempted target. -/
theorem transition_table_exact :
    (∀ s t : ShipmentStatusEnum, s.canTransitionTo t = true ↔
      (s, t) ∈ ([(.PENDING, .PREPARED), (.PENDING, .CANCELLED),
        (.PREPARED, .IN_TRANSIT), (.PREPARED, .CANCELLED),
        (.IN_TRANSIT, .DELIVERED), (.DELIVERED, .RETURNING),
        (.RETURNING, .RETURNED), (.RETURNING, .EXCHANGE_PROCESSED)] :
          List (ShipmentStatusEnum × ShipmentStatusEnum)))
    ∧ (∀ t : ShipmentStatusEnum,
        ShipmentStatusEnum.CANCELLED.canTransitionTo t = false ∧
        ShipmentStatusEnum.RETURNED.canTransitionTo t = false ∧
        ShipmentStatusEnum.EXCHANGE_PROCESSED.canTransitionTo t = false)
    ∧ (∀ (s : Shipment) (eid : String) (a d : Option String) (ts : String),
        (s.status.canTransitionTo .PREPARED = false →
          s.moveToPrepared eid a d ts =
            Except.error (DomainError.invalidTransition s.status.value "PREPARED")) ∧
        (s.status.canTransitionTo .IN_TRANSIT = false →
          s.moveToInTransit eid a d ts =
            Except.error (DomainError.invalidTransition s.status.value "IN_TRANSIT")) ∧
        (s.status.canTransitionTo .DELIVERED = false →
          s.moveToDelivered eid a d ts =
            Except.error (DomainError.invalidTransition s.status.value "DELIVERED"))) := by
  refine ⟨fun s t => by cases s <;> cases t <;> decide,
    fun t => by cases t <;> exact ⟨by decide, by decide, by decide⟩, ?_⟩
  intro s eid a d ts
  refine ⟨?_, ?_, ?_⟩ <;> intro h <;>
    simp [Shipment.moveToPrepared, Shipment.moveToInTransit, Shipment.moveToDelivered, h,
      ShipmentStatusEnum.value]

theorem transition_table_exact_witness :
    (demoShipment .DELIVERED).moveToPrepared "w1" none none "TW" =
      Except.error (DomainError.invalidTransition "DELIVERED" "PREPARED") :=
  (transition_table_exact.2.2 (demoShipment .DELIVERED) "w1" none none "TW").1 (by decide)

/-- **C2** — For every operation sequence legal under the §4.1 table starting
from a freshly created PENDING aggregate, the run succeeds and replaying the
buffered event list (creation event first) via `fromEvents` yields an
aggregate whose status is the target of the last transition of the
sequence. -/
theorem fromEvents_status_tracks_legal_paths
    (path : List (DomainOp × OpArgs)) (shipmentId orderId : String)
    (ci : CustomerInfo) (arts : List Article) (actor description : Option String)
    (eventId ts : String) (lastOp : DomainOp)
    (hleg : legalFrom .PENDING (path.map Prod.fst) = true)
    (hlast : (path.map Prod.fst).getLast? = some lastOp) :
    ∃ s' r',
      runOps (createShipmentAggregate shipmentId orderId ci arts actor description eventId ts)
          path = Except.ok s' ∧
      Shipment.fromEvents s'.events = Except.ok r' ∧
      r'.status = lastOp.target := by
  obtain ⟨r0, hr0, hst0⟩ :=
    created_replay shipmentId orderId ci arts actor description eventId ts
  obtain ⟨s', r', hrun, hfe, hst, hlastT⟩ :=
    runOps_replay path
      (createShipmentAggregate shipmentId orderId ci arts actor description eventId ts)
      hleg ⟨r0, hr0, hst0⟩
  refine ⟨s', r', hrun, hfe, ?_⟩
  rw [hst, hlastT, lastTargetD_getLast _ _ _ hlast]

theorem fromEvents_status_tracks_legal_paths_witness :
    ∃ s' r',
      runOps (createShipmentAggregate "S1" "O1" demoCI [demoArticle] (some "sys") none "p1" "T1")
          demoPath = Except.ok s' ∧
      Shipment.fromEvents s'.events = Except.ok r' ∧
      r'.status = ShipmentStatusEnum.RETURNED :=
  fromEvents_status_tracks_legal_paths demoPath "S1" "O1" demoCI [demoArticle]
    (some "sys") none "p1" "T1" DomainOp.doCompleteReturn (by decide) (by decide)

/-- **C3** — `cancel` succeeds iff the current status is PENDING or PREPARED;
from any other status it fails with the cancel guard error (an
InvalidTransition-category error naming the current status) and the
aggregate — status, tracking history, event buffer — is unchanged. -/
theorem cancel_iff_cancellable :
    ∀ (s : Shipment) (eid : String) (a d : Option String) (ts : String),
      ((∃ s', s.cancel eid a d ts = Except.ok s') ↔
        (s.status = .PENDING ∨ s.status = .PREPARED)) ∧
      (¬ (s.status = .PENDING ∨ s.status = .PREPARED) →
        s.cancel eid a d ts = Except.error (DomainError.cannotCancel s.status.value) ∧
        (DomainError.cannotCancel s.status.value).category =
          ErrCategory.invalidTransitionCat ∧
        postState s (s.cancel eid a d ts) = s) := by
  intro s eid a d ts
  by_cases hc : s.status.canBeCancelled = true
  · have hmem : s.status = .PENDING ∨ s.status = .PREPARED := by
      revert hc; cases s.status <;> decide
    constructor
    · refine ⟨fun _ => hmem, fun _ => ?_⟩
      exact ⟨_, by
        simp only [Shipment.cancel, if_pos hc]
        exact applyEvent_ok _ _ ShipmentStatusEnum.CANCELLED rfl⟩
    · intro hno; exact absurd hmem hno
  · have hmem : ¬ (s.status = .PENDING ∨ s.status = .PREPARED) := by
      revert hc; cases s.status <;> decide
    have herr : s.cancel eid a d ts =
        Except.error (DomainError.cannotCancel s.status.value) := by
      simp only [Shipment.cancel, if_neg hc]
    constructor
    · constructor
      · rintro ⟨s', hs'⟩
        rw [herr] at hs'
        exact Except.noConfusion hs'
      · intro h; exact absurd h hmem
    · intro _
      exact ⟨herr, rfl, by simp only [herr, postState]⟩

theorem cancel_iff_cancellable_witness :
    (demoShipment .DELIVERED).cancel "w2" none none "TW" =
      Except.error (DomainError.cannotCancel "DELIVERED") ∧
    postState (demoShipment .DELIVERED)
        ((demoShipment .DELIVERED).cancel "w2" none none "TW") =
      demoShipment .DELIVERED := by
  have h := (cancel_iff_cancellable (demoShipment .DELIVERED) "w2" none none "TW").2
    (by decide)
  exact ⟨h.1, h.2.2⟩

/-- **C10** — `isTerminal` is true exactly on DELIVERED, CANCELLED, RETURNED
and EXCHANGE_PROCESSED; it is not equivalent to having no outbound
transition, because DELIVERED is classified terminal (also by the
event-level `isTerminalEvent`) while DELIVERED → RETURNING is legal. -/
theorem isTerminal_not_no_outbound :
    (∀ s : ShipmentStatusEnum, s.isTerminal = true ↔
      (s = .DELIVERED ∨ s = .CANCELLED ∨ s = .RETURNED ∨ s = .EXCHANGE_PROCESSED))
    ∧ ¬ (∀ s : ShipmentStatusEnum,
          s.isTerminal = true ↔ (∀ t, s.canTransitionTo t = false))
    ∧ ShipmentStatusEnum.DELIVERED.isTerminal = true
    ∧ ShipmentStatusEnum.DELIVERED.canTransitionTo .RETURNING = true
    ∧ (ShipmentEvent.createMovedToDelivered "w3" "S" "O" none none "TW").isTerminalEvent
        = true := by
  refine ⟨fun s => by cases s <;> decide, ?_, by decide, by decide, by decide⟩
  intro hall
  have := (hall .DELIVERED).mp (by decide) .RETURNING
  exact absurd this (by decide)

/-- **C9** — `fromEvents []` fails with the empty-history error; a non-empty
history whose first event lacks the customer-info / line-item creation
payload fails with the malformed-history error; `loadById` on an id with
zero stored events fails with the not-found error. -/
theorem history_error_paths :
    Shipment.fromEvents [] = Except.error DomainError.emptyHistory ∧
    (∀ (e : ShipmentEvent) (es : List ShipmentEvent),
      e.customerInfo = none ∨ e.articles = none →
      Shipment.fromEvents (e :: es) = Except.error DomainError.malformedHistory) ∧
    (∀ (ps : PersistState) (sid : String), strBlank sid = false →
      ps.log.filter (fun d => d.shipmentId = sid) = [] →
      loadById ps sid = Except.error (DomainError.notFound sid)) := by
  refine ⟨rfl, ?_, ?_⟩
  · intro e es h
    rcases h with h | h
    · simp [Shipment.fromEvents, h]
    · cases hci : e.customerInfo with
      | none => simp [Shipment.fromEvents, hci]
      | some ci => simp [Shipment.fromEvents, hci, h]
  · intro ps sid hb hf
    simp [loadById, getEventsByShipmentId, hb, hf, bind, Except.bind]

theorem history_error_paths_witness :
    Shipment.fromEvents [ShipmentEvent.createMovedToPrepared "x" "S" "O" none none "T"] =
      Except.error DomainError.malformedHistory ∧
    loadById { log := [], projection := [] } "S9" =
      Except.error (DomainError.notFound "S9") :=
  ⟨history_error_paths.2.1 _ [] (Or.inl rfl),
   history_error_paths.2.2 { log := [], projection := [] } "S9" (by decide) rfl⟩

/-- **C6** (code bug at the `cancel` call site) — cancelling a PENDING
aggregate with acting party "admin" and note "customer request" buffers one
SHIPMENT_CANCELLED event whose `previousStatus` is the acting party, whose
`actor` is the note, and whose `description` is the generated default — the
misrouted positional arguments of `createShipmentCancelled` — instead of
previousStatus "PENDING", actor "admin", description "customer request". -/
theorem cancel_event_misroutes_arguments :
    ((demoShipment .PENDING).cancel "e1" (some "admin") (some "customer request") "T0").map
        (fun s' => s'.events.map (fun e => (e.eventType, e.newStatus))) =
      Except.ok [(ShipmentEventType.SHIPMENT_CANCELLED, some "CANCELLED")] ∧
    ((demoShipment .PENDING).cancel "e1" (some "admin") (some "customer request") "T0").map
        (fun s' => s'.events.map (fun e => e.previousStatus)) =
      Except.ok [some "admin"] ∧
    ((demoShipment .PENDING).cancel "e1" (some "admin") (some "customer request") "T0").map
        (fun s' => s'.events.map (fun e => e.actor)) =
      Except.ok [some "customer request"] ∧
    ((demoShipment .PENDING).cancel "e1" (some "admin") (some "customer request") "T0").map
        (fun s' => s'.events.map (fun e => e.description)) =
      Except.ok [some "Envío cancelado el T0"] ∧
    ¬ ((some "admin" : Option String) = some "PENDING") := by
  exact ⟨by decide, by decide, by decide, by decide, by decide⟩

/-- **C5** (code bug at the `createForExchange` call site) — for the sample
exchange aggregate, save followed by loadById preserves status, kind and
tracking length, but the reloaded line items are the string "nota" (the
description misrouted into the creation event's `articles` slot) instead of
the saved line-item list; and with no acting party the reload fails with the
malformed-history error instead of returning an aggregate. -/
theorem exchange_roundtrip_corrupts_line_items :
    (exchangeAggregate.bind (fun s2 => (repositorySave { log := [], projection := [] } s2).bind
        (fun p => (loadById p.1 "S2").map (fun r =>
          (decide (r.status = s2.status), decide (r.type = s2.type),
            decide (r.tracking.length = s2.tracking.length),
            decide (r.articles = s2.articles), r.articles, s2.articles)))))
      = Except.ok (true, true, true, false, ArtVal.str "nota", ArtVal.arts [demoArticle]) ∧
    ((Shipment.createForExchange "S3" "O1" "S1" (.info demoCI) (.arts [demoArticle])
        none none "e8" "T8").bind (fun s2 =>
      (repositorySave { log := [], projection := [] } s2).bind (fun p => loadById p.1 "S3")))
      = Except.error DomainError.malformedHistory := by
  exact ⟨by decide, by decide⟩

/-- **C4** (counterexample) — executing exchange initiation on the DELIVERED
sample shipment appends exactly two events to it, and the FIRST of them is a
RETURN_INITIATED event, refuting the claim's "no return-initiated event is
emitted". -/
theorem exchange_emits_return_initiated :
    (initiateExchangeExecute demoPS demoCmd demoCtx).map
        (fun r => r.s1AppendedEvents.map (fun e => e.eventType)) =
      Except.ok [ShipmentEventType.RETURN_INITIATED, ShipmentEventType.EXCHANGE_INITIATED] := by
  decide

theorem countId_append (st : EventStore) (d : StoredEvent) (x : String) :
    countId (st ++ [d]) x = countId st x + (if d.mongoId = x then 1 else 0) := by
  simp only [countId, List.filter_append]
  by_cases h : d.mongoId = x
  · simp [h]
  · simp [h]

theorem hasId_append (st : EventStore) (d : StoredEvent) (x : String) :
    hasId (st ++ [d]) x = (hasId st x || decide (d.mongoId = x)) := by
  simp [hasId, List.any_append]

theorem countId_zero_of_not_hasId (st : EventStore) (x : String)
    (h : hasId st x = false) : countId st x = 0 := by
  induction st with
  | nil => rfl
  | cons d rest ih =>
    simp only [hasId, List.any_cons, Bool.or_eq_false_iff] at h
    obtain ⟨h1, h2⟩ := h
    simp only [countId, List.filter_cons, h1]
    exact ih h2

theorem insertStep_hasId_self (st : EventStore) (sid : String) (e : ShipmentEvent) :
    hasId (insertStep st sid e) e.eventId = true := by
  unfold insertStep
  cases hd : hasId st e.eventId with
  | true => simp [hd]
  | false => simp [hd, hasId_append]

theorem insertStep_hasId_mono (st : EventStore) (sid : String) (e : ShipmentEvent)
    (x : String) (h : hasId st x = true) :
    hasId (insertStep st sid e) x = true := by
  unfold insertStep
  cases hd : hasId st e.eventId with
  | true => simpa using h
  | false => simp [hasId_append, h]

theorem insertStep_countId_of_hasId (st : EventStore) (sid : String) (e : ShipmentEvent)
    (x : String) (h : hasId st x = true) :
    countId (insertStep st sid e) x = countId st x := by
  unfold insertStep
  cases hd : hasId st e.eventId with
  | true => simp
  | false =>
    have hne : ¬ e.eventId = x := by
      intro he; rw [he, h] at hd; exact Bool.noConfusion hd
    simp [countId_append, hne]

theorem insertStep_countId_le (st : EventStore) (sid : String) (e : ShipmentEvent)
    (x : String) (hle : countId st x ≤ 1) :
    countId (insertStep st sid e) x ≤ 1 := by
  unfold insertStep
  cases hd : hasId st e.eventId with
  | true => simpa using hle
  | false =>
    by_cases he : e.eventId = x
    · subst he
      simp [countId_append, countId_zero_of_not_hasId st _ hd]
    · simp [countId_append, he, hle]

theorem insFold_spec (events : List ShipmentEvent) (sid : String) :
    ∀ st : EventStore,
      (∀ x, hasId st x = true →
        countId (events.foldl (fun s e => insertStep s sid e) st) x = countId st x) ∧
      ((∀ x, countId st x ≤ 1) →
        ∀ x, countId (events.foldl (fun s e => insertStep s sid e) st) x ≤ 1) ∧
      (∀ e ∈ events, hasId (events.foldl (fun s e => insertStep s sid e) st) e.eventId = true) ∧
      (∀ x, hasId st x = true →
        hasId (events.foldl (fun s e => insertStep s sid e) st) x = true) := by
  induction events with
  | nil =>
    intro st
    exact ⟨fun x _ => rfl, fun h x => h x, by simp, fun x h => h⟩
  | cons e rest ih =>
    intro st
    simp only [List.foldl_cons]
    obtain ⟨ihA, ihB, ihC, ihD⟩ := ih (insertStep st sid e)
    refine ⟨?_, ?_, ?_, ?_⟩
    · intro x hx
      rw [ihA x (insertStep_hasId_mono st sid e x hx)]
      exact insertStep_countId_of_hasId st sid e x hx
    · intro hall x
      exact ihB (fun y => insertStep_countId_le st sid e y (hall y)) x
    · intro e' he'
      rcases List.mem_cons.mp he' with rfl | hm
      · exact ihD e'.eventId (insertStep_hasId_self st sid e')
      · exact ihC e' hm
    · intro x hx
      exact ihD x (insertStep_hasId_mono st sid e x hx)

/-- **C7** — Event-log append is idempotent on event id: with a valid
shipment id, `saveEvents` never raises an error for duplicates; ids already
stored keep exactly their stored copies (no second copy is created, whether
the whole batch or part of it is a retry); the per-id uniqueness of the
store is preserved; and every member of the batch — including the new ones
of a partially-duplicate batch — is present afterwards. -/
theorem saveEvents_idempotent :
    ∀ (store : EventStore) (sid : String) (events : List ShipmentEvent),
      strBlank sid = false →
      ∃ store', saveEvents store sid events = Except.ok store' ∧
        (∀ x, hasId store x = true → countId store' x = countId store x) ∧
        ((∀ x, countId store x ≤ 1) → ∀ x, countId store' x ≤ 1) ∧
        (∀ e ∈ events, hasId store' e.eventId = true) ∧
        (∀ x, hasId store x = true → hasId store' x = true) := by
  intro store sid events hb
  by_cases he : events = []
  · subst he
    refine ⟨store, ?_, fun x _ => rfl, fun h => h, by simp, fun x h => h⟩
    simp [saveEvents, hb]
  · obtain ⟨A, B, C, D⟩ := insFold_spec events sid store
    refine ⟨_, ?_, A, B, C, D⟩
    simp [saveEvents, hb, he]

theorem saveEvents_idempotent_witness :
    ∃ store', saveEvents demoPS.log "S1" s1Events = Except.ok store' ∧
      (∀ x, hasId demoPS.log x = true → countId store' x = countId demoPS.log x) ∧
      ((∀ x, countId demoPS.log x ≤ 1) → ∀ x, countId store' x ≤ 1) ∧
      (∀ e ∈ s1Events, hasId store' e.eventId = true) ∧
      (∀ x, hasId demoPS.log x = true → hasId store' x = true) :=
  saveEvents_idempotent demoPS.log "S1" s1Events (by decide)

theorem saveAppendPhase_ok (ps : PersistState) (s : Shipment) (mid : PersistState)
    (hmid : saveAppendPhase ps s = Except.ok mid) :
    mid.projection = ps.projection ∧ (∀ e ∈ s.events, hasId mid.log e.eventId = true) := by
  unfold saveAppendPhase at hmid
  by_cases hlen : s.events.length > 0
  · rw [if_pos hlen] at hmid
    cases hse : saveEvents ps.log s.id s.events with
    | error err =>
      rw [hse] at hmid
      exact Except.noConfusion hmid
    | ok log' =>
      rw [hse] at hmid
      simp only [bind, Except.bind, pure, Except.pure, Except.ok.injEq] at hmid
      subst hmid
      refine ⟨rfl, ?_⟩
      have hne : ¬ s.events = [] := by
        intro h0; rw [h0] at hlen; exact Nat.lt_irrefl 0 hlen
      unfold saveEvents at hse
      by_cases hbk : strBlank s.id = true
      · rw [if_pos hbk] at hse; exact Except.noConfusion hse
      · rw [if_neg hbk, if_neg hne] at hse
        obtain ⟨_, _, C, _⟩ := insFold_spec s.events s.id ps.log
        simp only [Except.ok.injEq] at hse
        subst hse
        exact C
  · rw [if_neg hlen] at hmid
    simp only [bind, Except.bind, pure, Except.pure, Except.ok.injEq] at hmid
    subst hmid
    refine ⟨rfl, ?_⟩
    have h0 : s.events = [] := by
      cases hev : s.events with
      | nil => rfl
      | cons a l => rw [hev] at hlen; exact absurd (by simp) hlen
    rw [h0]
    intro e he
    exact absurd he (List.not_mem_nil e)

/-- **C8** — In `save`, the buffered events reach the event log strictly
before the projection is touched: the state after the append phase carries
every buffered event in the log while its projection is still the old one
(the log is never behind the projection); the full save then upserts the
projection from the aggregate's state and returns the aggregate with its
buffer cleared — `clearEvents` runs only after both steps; if the append
phase fails, the whole save fails with that error, producing no cleared
aggregate, so the buffer is left uncleared. -/
theorem save_appends_before_upsert :
    ∀ (ps : PersistState) (s : Shipment),
      (∀ mid, saveAppendPhase ps s = Except.ok mid →
        mid.projection = ps.projection ∧
        (∀ e ∈ s.events, hasId mid.log e.eventId = true) ∧
        repositorySave ps s =
          Except.ok ({ log := mid.log, projection := projectionUpsert mid.projection s },
            s.clearEvents)) ∧
      (∀ err, saveAppendPhase ps s = Except.error err →
        repositorySave ps s = Except.error err) ∧
      (∀ ps' s', repositorySave ps s = Except.ok (ps', s') → s'.events = []) := by
  intro ps s
  refine ⟨?_, ?_, ?_⟩
  · intro mid hmid
    obtain ⟨h1, h2⟩ := saveAppendPhase_ok ps s mid hmid
    refine ⟨h1, h2, ?_⟩
    simp only [repositorySave, hmid, bind, Except.bind, pure, Except.pure]
  · intro err herr
    simp only [repositorySave, herr, bind, Except.bind]
  · intro ps' s' hok
    unfold repositorySave at hok
    cases hmid : saveAppendPhase ps s with
    | error err =>
      rw [hmid] at hok
      exact Except.noConfusion hok
    | ok mid =>
      rw [hmid] at hok
      simp only [bind, Except.bind, pure, Except.pure, Except.ok.injEq, Prod.mk.injEq] at hok
      rw [← hok.2]
      rfl

theorem save_appends_before_upsert_witness :
    ∃ mid, saveAppendPhase { log := [], projection := [] }
        (createShipmentAggregate "S8" "O8" demoCI [demoArticle] none none "c8" "T8") =
          Except.ok mid ∧
      mid.projection = [] ∧
      repositorySave { log := [], projection := [] }
          (createShipmentAggregate "S8" "O8" demoCI [demoArticle] none none "c8" "T8") =
        Except.ok ({
            log := mid.log,
            projection := projectionUpsert mid.projection
              (createShipmentAggregate "S8" "O8" demoCI [demoArticle] none none "c8" "T8") },
          (createShipmentAggregate "S8" "O8" demoCI [demoArticle] none none "c8" "T8").clearEvents) := by
  obtain ⟨h1, h2, h3⟩ :=
    (save_appends_before_upsert { log := [], projection := [] }
      (createShipmentAggregate "S8" "O8" demoCI [demoArticle] none none "c8" "T8")).1 _ rfl
  exact ⟨_, rfl, h1, h3⟩

@[simp] theorem applyStatusEvent_id (s : Shipment) (e : ShipmentEvent) (t : ShipmentStatusEnum) :
    (applyStatusEvent s e t).id = s.id := rfl

@[simp] theorem applyStatusEvent_orderId (s : Shipment) (e : ShipmentEvent) (t : ShipmentStatusEnum) :
    (applyStatusEvent s e t).orderId = s.orderId := rfl

@[simp] theorem applyStatusEvent_status (s : Shipment) (e : ShipmentEvent) (t : ShipmentStatusEnum) :
    (applyStatusEvent s e t).status = t := rfl

@[simp] theorem applyStatusEvent_type (s : Shipment) (e : ShipmentEvent) (t : ShipmentStatusEnum) :
    (applyStatusEvent s e t).type = s.type := rfl

@[simp] theorem applyStatusEvent_customerInfo (s : Shipment) (e : ShipmentEvent) (t : ShipmentStatusEnum) :
    (applyStatusEvent s e t).customerInfo = s.customerInfo := rfl

@[simp] theorem applyStatusEvent_articles (s : Shipment) (e : ShipmentEvent) (t : ShipmentStatusEnum) :
    (applyStatusEvent s e t).articles = s.articles := rfl

@[simp] theorem applyStatusEvent_events (s : Shipment) (e : ShipmentEvent) (t : ShipmentStatusEnum) :
    (applyStatusEvent s e t).events = s.events ++ [e] := rfl

@[simp] theorem applyStatusEvent_rel (s : Shipment) (e : ShipmentEvent) (t : ShipmentStatusEnum) :
    (applyStatusEvent s e t).relatedShipmentId = relUpdate s.relatedShipmentId e.relatedShipmentId := rfl

@[simp] theorem clearEvents_id (s : Shipment) : s.clearEvents.id = s.id := rfl

@[simp] theorem clearEvents_orderId (s : Shipment) : s.clearEvents.orderId = s.orderId := rfl

@[simp] theorem clearEvents_status (s : Shipment) : s.clearEvents.status = s.status := rfl

@[simp] theorem clearEvents_type (s : Shipment) : s.clearEvents.type = s.type := rfl

@[simp] theorem clearEvents_customerInfo (s : Shipment) : s.clearEvents.customerInfo = s.customerInfo := rfl

@[simp] theorem clearEvents_articles (s : Shipment) : s.clearEvents.articles = s.articles := rfl

@[simp] theorem clearEvents_events (s : Shipment) : s.clearEvents.events = [] := rfl

@[simp] theorem clearEvents_rel (s : Shipment) : s.clearEvents.relatedShipmentId = s.relatedShipmentId := rfl

theorem saveEvents_ok (store : EventStore) (sid : String) (events : List ShipmentEvent)
    (hid : strBlank sid = false) :
    saveEvents store sid events = Except.ok (if events = [] then store
      else events.foldl (fun st e => insertStep st sid e) store) := by
  unfold saveEvents
  rw [if_neg (by simp [hid])]
  by_cases he : events = [] <;> simp [he]

theorem repositorySave_ok (ps : PersistState) (s : Shipment)
    (hid : strBlank s.id = false) :
    ∃ ps', repositorySave ps s = Except.ok (ps', s.clearEvents) := by
  unfold repositorySave saveAppendPhase
  by_cases hlen : s.events.length > 0
  · rw [if_pos hlen, saveEvents_ok ps.log s.id s.events hid]
    refine ⟨{
        log := if s.events = [] then ps.log
          else s.events.foldl (fun st e => insertStep st s.id e) ps.log,
        projection := projectionUpsert ps.projection s }, ?_⟩
    simp [bind, Except.bind, pure, Except.pure]
  · rw [if_neg hlen]
    refine ⟨{ log := ps.log, projection := projectionUpsert ps.projection s }, ?_⟩
    simp [bind, Except.bind, pure, Except.pure]

theorem loadById_buffer_empty (ps : PersistState) (sid : String) (r : Shipment)
    (h : loadById ps sid = Except.ok r) : r.events = [] := by
  unfold loadById at h
  cases hg : getEventsByShipmentId ps.log sid with
  | error err => rw [hg] at h; exact Except.noConfusion h
  | ok events =>
    rw [hg] at h
    simp only [bind, Except.bind] at h
    by_cases hlen : events.length = 0
    · rw [if_pos hlen] at h; exact Except.noConfusion h
    · rw [if_neg hlen] at h
      exact fromEvents_buffer_empty events r h

/-- **C4** (amended) — Starting exchange initiation on a DELIVERED shipment:
exactly two events are appended to the original over the run, the first a
RETURN_INITIATED event (the DELIVERED → RETURNING step the use case performs
explicitly) and the second an EXCHANGE_INITIATED event; the original's final
status is EXCHANGE_PROCESSED; and a brand-new aggregate of kind EXCHANGE is
created with status PENDING and `relatedShipmentId` equal to the original's
id. -/
theorem exchange_on_delivered_spec
    (ps : PersistState) (cmd : InitiateExchangeCommand) (ctx : ExchangeCtx)
    (s1 : Shipment)
    (hval : validateExchangeCommand cmd = Except.ok ())
    (hload : loadById ps cmd.shipmentId = Except.ok s1)
    (hst : s1.status = .DELIVERED)
    (hid : s1.id = cmd.shipmentId)
    (hblank : strBlank cmd.shipmentId = false)
    (hnsid : strBlank ctx.newShipmentId = false)
    (harts : validateArticlesVal (match cmd.newArticles with
      | some l => ArtVal.arts l
      | none => s1.articles) = Except.ok ()) :
    ∃ res, initiateExchangeExecute ps cmd ctx = Except.ok res ∧
      res.s1AppendedEvents.map (fun e => e.eventType) =
        [ShipmentEventType.RETURN_INITIATED, ShipmentEventType.EXCHANGE_INITIATED] ∧
      res.originalShipment.status = .EXCHANGE_PROCESSED ∧
      res.newShipment.type = .EXCHANGE ∧
      res.newShipment.status = .PENDING ∧
      res.newShipment.relatedShipmentId = some cmd.shipmentId := by
  have hbuf : s1.events = [] := loadById_buffer_empty ps cmd.shipmentId s1 hload
  have hdel : s1.status.isDelivered = true := by
    rw [hst]; rfl
  have hret : s1.initiateReturn ctx.eidReturn (some (jsOrStr cmd.actor "customer"))
      (some "Devolución iniciada para cambio de producto") ctx.tsReturn =
      Except.ok (applyStatusEvent s1
        (ShipmentEvent.createReturnInitiated ctx.eidReturn s1.id s1.orderId
          (some (jsOrStr cmd.actor "customer"))
          (some "Devolución iniciada para cambio de producto") ctx.tsReturn)
        .RETURNING) := by
    simp only [Shipment.initiateReturn, hdel, if_true]
    exact applyEvent_ok _ _ _ rfl
  obtain ⟨ps1, hsave1⟩ := repositorySave_ok ps
    (applyStatusEvent s1
      (ShipmentEvent.createReturnInitiated ctx.eidReturn s1.id s1.orderId
        (some (jsOrStr cmd.actor "customer"))
        (some "Devolución iniciada para cambio de producto") ctx.tsReturn)
      .RETURNING)
    (by simpa [hid] using hblank)
  set eR := ShipmentEvent.createReturnInitiated ctx.eidReturn s1.id s1.orderId
    (some (jsOrStr cmd.actor "customer"))
    (some "Devolución iniciada para cambio de producto") ctx.tsReturn with heR
  set saved1 := (applyStatusEvent s1 eR .RETURNING).clearEvents with hsaved1
  set eX := ShipmentEvent.createExchangeInitiated ctx.eidExchange saved1.id saved1.orderId
    ctx.newShipmentId (some (jsOrStr cmd.actor "customer"))
    (some (buildExchangeDescription cmd ctx.newShipmentId ctx.tsExchange)) ctx.tsExchange with heX
  have hexch : saved1.initiateExchange ctx.newShipmentId ctx.eidExchange
      (some (jsOrStr cmd.actor "customer"))
      (some (buildExchangeDescription cmd ctx.newShipmentId ctx.tsExchange)) ctx.tsExchange =
      Except.ok (applyStatusEvent saved1 eX .EXCHANGE_PROCESSED) := by
    have hr : saved1.status.isReturning = true := rfl
    simp only [Shipment.initiateExchange]
    rw [if_pos hr]
    exact applyEvent_ok _ _ _ rfl
  set base : Shipment :=
    { id := ctx.newShipmentId, orderId := saved1.orderId, status := .PENDING,
      type := .EXCHANGE,
      customerInfo := saved1.customerInfo,
      articles := (match cmd.newArticles with
        | some l => ArtVal.arts l
        | none => saved1.articles),
      tracking := [], relatedShipmentId := some cmd.shipmentId, events := [] } with hbase
  set eC := ShipmentEvent.createExchangeCompleted ctx.eidCreate ctx.newShipmentId saved1.orderId
    cmd.shipmentId ((some (jsOrStr cmd.actor "system")).map CIVal.str)
    ((some ("Nuevo envío de cambio creado desde " ++ cmd.shipmentId)).map ArtVal.str)
    none none ctx.tsCreate with heC
  have hnewcall : Shipment.createForExchange ctx.newShipmentId saved1.orderId cmd.shipmentId
      saved1.customerInfo
      (match cmd.newArticles with
        | some l => ArtVal.arts l
        | none => saved1.articles)
      (some (jsOrStr cmd.actor "system"))
      (some ("Nuevo envío de cambio creado desde " ++ cmd.shipmentId))
      ctx.eidCreate ctx.tsCreate =
      Except.ok (applyStatusEvent base eC .PENDING) := by
    simp only [Shipment.createForExchange, hbase, heC]
    exact applyEvent_ok _ _ _ rfl
  obtain ⟨ps2, hsave2⟩ := repositorySave_ok ps1 (applyStatusEvent saved1 eX .EXCHANGE_PROCESSED)
    (by
      simp only [applyStatusEvent_id, hsaved1, clearEvents_id, hid]
      exact hblank)
  obtain ⟨ps3, hsave3⟩ := repositorySave_ok ps2 (applyStatusEvent base eC .PENDING)
    (by
      simp only [applyStatusEvent_id, hbase]
      exact hnsid)
  refine ⟨{
      originalShipment := (applyStatusEvent saved1 eX .EXCHANGE_PROCESSED).clearEvents,
      newShipment := (applyStatusEvent base eC .PENDING).clearEvents,
      s1AppendedEvents := (applyStatusEvent s1 eR .RETURNING).events ++
        (applyStatusEvent saved1 eX .EXCHANGE_PROCESSED).events,
      finalState := ps3 }, ?_, ?_, ?_, ?_, ?_, ?_⟩
  · have harts' : validateArticlesVal (match cmd.newArticles with
        | some l => ArtVal.arts l
        | none => saved1.articles) = Except.ok () := harts
    simp only [initiateExchangeExecute, hval, hload, hdel, Bool.true_or, Bool.not_true,
      Bool.false_eq_true, if_false, if_true, hret, hsave1, harts', hexch, hnewcall,
      hsave2, hsave3, bind, Except.bind, pure, Except.pure]
  · simp only [applyStatusEvent_events, clearEvents_events, hbuf, List.nil_append,
      List.map_append, List.map_cons, List.map_nil]
    rfl
  · rfl
  · rfl
  · rfl
  · simp only [clearEvents_rel, applyStatusEvent_rel, hbase, relUpdate, heC,
      ShipmentEvent.createExchangeCompleted]
    split
    · rfl
    · rfl

theorem exchange_on_delivered_spec_witness :
    ∃ res, initiateExchangeExecute demoPS demoCmd demoCtx = Except.ok res ∧
      res.s1AppendedEvents.map (fun e => e.eventType) =
        [ShipmentEventType.RETURN_INITIATED, ShipmentEventType.EXCHANGE_INITIATED] ∧
      res.originalShipment.status = .EXCHANGE_PROCESSED ∧
      res.newShipment.type = .EXCHANGE ∧
      res.newShipment.status = .PENDING ∧
      res.newShipment.relatedShipmentId = some demoCmd.shipmentId :=
  exchange_on_delivered_spec demoPS demoCmd demoCtx _ (by decide) rfl (by decide)
    (by decide) (by decide) (by decide) (by decide)

end Delivery
